import Mathlib

/-!
Verification of the axum-api todo service (src/axum-api/src/handlers.rs,
models.rs) against its natural-language specification.

The handlers are shallowly embedded as pure functions. Each database round
trip of a handler is represented by an oracle argument carrying the outcome
the store produced for that call (success value or store failure), and every
handler also returns the list of data-access calls it issued, in order. The
SQL statements appearing in handlers.rs are given executable semantics over a
store modelled as a list of rows; a "healthy" store is one whose oracles are
computed from that semantics with no connection failure.

Rust `.unwrap()` on a failed database result is a panic: the embedded
handlers return a dedicated `panicked` outcome in that case, distinct from
every HTTP response, since the Rust handler produces no response at all.
-/

namespace AxumApi

/-- Identifier type of the `Todo` entity: `uuid::Uuid`, a 128 bit value
(`Uuid::new_v4` draws a random one). -/
abbrev Uuid := Fin (2 ^ 128)

/-- The `Todo` entity from models.rs: `id`, `title`, `completed`,
`created_at` (the `NaiveDateTime` timestamp is modelled as a `Nat`). -/
structure Todo where
  id : Uuid
  title : String
  completed : Bool
  created_at : Nat
deriving DecidableEq, Repr

/-- JSON values, for modelling request bodies and serde decoding. -/
inductive Json where
  | null
  | bool (b : Bool)
  | num (n : Int)
  | str (s : String)
  | arr (elems : List Json)
  | obj (fields : List (String × Json))

/-- Request body of the create endpoint (handlers.rs): a struct with one
required field `title : String`. -/
structure CreateTodo where
  title : String
deriving DecidableEq, Repr

/-- Request body of the update endpoint (handlers.rs): both fields are
`Option`al. -/
structure UpdateTodo where
  title : Option String
  completed : Option Bool
deriving DecidableEq, Repr

/-- serde object-field lookup: first binding of the key, if any. -/
def getField (fields : List (String × Json)) (k : String) : Option Json :=
  (fields.find? (fun p => p.fst == k)).map Prod.snd

/-- serde decoding of `CreateTodo`: the body must be a JSON object whose
`title` field is present and is a string (any string, the empty string
included); otherwise decoding fails. -/
def decodeCreateTodo : Json → Option CreateTodo
  | .obj fields =>
    match getField fields "title" with
    | some (.str s) => some ⟨s⟩
    | _ => none
  | _ => none

/-- serde decoding of an `Option<String>` struct field: a missing field and
an explicit JSON `null` both decode to `none`; a string decodes to `some`;
any other value is a decode error. -/
def decodeOptString : Option Json → Option (Option String)
  | none => some none
  | some .null => some none
  | some (.str s) => some (some s)
  | some _ => none

/-- serde decoding of an `Option<bool>` struct field: a missing field and an
explicit JSON `null` both decode to `none`; a boolean decodes to `some`; any
other value is a decode error. -/
def decodeOptBool : Option Json → Option (Option Bool)
  | none => some none
  | some .null => some none
  | some (.bool b) => some (some b)
  | some _ => none

/-- serde decoding of `UpdateTodo`: a JSON object whose optional fields
`title` and `completed` each decode per the `Option` field rule. -/
def decodeUpdateTodo : Json → Option UpdateTodo
  | .obj fields => do
    let t ← decodeOptString (getField fields "title")
    let c ← decodeOptBool (getField fields "completed")
    pure ⟨t, c⟩
  | _ => none

/-- A store or connectivity failure reported by sqlx for one round trip. -/
inductive DbErr where
  | connection
  | rowNotFound
deriving DecidableEq, Repr

/-- One data-access call issued by a handler, with its bound arguments. -/
inductive DbCall where
  | selectAll
  | insertRow (id : Uuid) (title : String)
  | selectById (id : Uuid)
  | deleteById (id : Uuid)
  | updateRow (title : String) (completed : Bool) (id : Uuid)
deriving DecidableEq, Repr

/-- Response bodies appearing in the handlers. -/
inductive Body where
  | jsonTodos (todos : List Todo)
  | jsonTodo (todo : Todo)
  | text (s : String)
  | msg (s : String)
  | rejection
  | empty
deriving DecidableEq, Repr

/-- Outcome of running a handler on a request: an HTTP response with a
status code and a body, or a panic (Rust `.unwrap()` of a failed result),
which produces no response. -/
inductive HttpOutcome where
  | response (status : Nat) (body : Body)
  | panicked
deriving DecidableEq, Repr

/-- Whether an outcome is a 500-class (server error) HTTP response. -/
def isServerErrorResponse : HttpOutcome → Bool
  | .response status _ => 500 ≤ status && status < 600
  | .panicked => false

/-- `list_todos` (handlers.rs): runs `SELECT * FROM todos ORDER BY
created_at DESC` via `fetch_all`, calls `.unwrap()` on the result, and
returns the rows as JSON. `fetchAll` is the outcome the store produced. -/
def list_todos (fetchAll : Except DbErr (List Todo)) : HttpOutcome × List DbCall :=
  (match fetchAll with
   | .ok todos => .response 200 (.jsonTodos todos)
   | .error _ => .panicked,
   [.selectAll])

/-- `create_todo` (handlers.rs): runs `Insert into todos(id, title) values
($1, $2) returning *` with a freshly generated v4 UUID `gen` and the decoded
`payload.title`, calls `.unwrap()` on the result, and returns the created
row. `insertRes` is the outcome the store produced. -/
def create_todo (payload : CreateTodo) (gen : Uuid)
    (insertRes : Except DbErr Todo) : HttpOutcome × List DbCall :=
  (match insertRes with
   | .ok todo => .response 200 (.jsonTodo todo)
   | .error _ => .panicked,
   [.insertRow gen payload.title])

/-- `get_todo` (handlers.rs): runs `SELECT * FROM todos WHERE id = $1` via
`fetch_optional`, calls `.unwrap()` on the result, then maps the row to a
200 response and absence to `StatusCode::NOT_FOUND`. -/
def get_todo (i : Uuid) (fetchOpt : Except DbErr (Option Todo)) :
    HttpOutcome × List DbCall :=
  (match fetchOpt with
   | .ok (some todo) => .response 200 (.jsonTodo todo)
   | .ok none => .response 404 .empty
   | .error _ => .panicked,
   [.selectById i])

/-- `delete_todo` (handlers.rs): runs `DELETE FROM todos WHERE id = $1`,
discards the result with `let _ =`, and returns the static string
`"Deleted"`. -/
def delete_todo (i : Uuid) (execRes : Except DbErr Unit) :
    HttpOutcome × List DbCall :=
  let _ := execRes
  (.response 200 (.text "Deleted"), [.deleteById i])

/-- `update_todo` (handlers.rs): reads the existing row (`readRes` is the
store outcome of `SELECT * FROM todos WHERE id = $1` via `fetch_optional`),
mapping a store error to 500 `"database error"` and absence to 404
`"Task not found"`; merges the payload fields over the existing row
(`unwrap_or`); then writes `UPDATE todos SET title = $1, completed = $2
WHERE id = $3 RETURNING *` (`writeRes` gives the store outcome for the bound
values), mapping a write failure to 500 `"Update failed"` and success to a
200 response with the updated row. -/
def update_todo (i : Uuid) (payload : UpdateTodo)
    (readRes : Except DbErr (Option Todo))
    (writeRes : String → Bool → Except DbErr Todo) : HttpOutcome × List DbCall :=
  match readRes with
  | .error _ => (.response 500 (.msg "database error"), [.selectById i])
  | .ok none => (.response 404 (.msg "Task not found"), [.selectById i])
  | .ok (some existing) =>
    let new_title := payload.title.getD existing.title
    let new_completed := payload.completed.getD existing.completed
    match writeRes new_title new_completed with
    | .ok updated =>
      (.response 200 (.jsonTodo updated),
       [.selectById i, .updateRow new_title new_completed i])
    | .error _ =>
      (.response 500 (.msg "Update failed"),
       [.selectById i, .updateRow new_title new_completed i])

/-- The POST /todos endpoint: the axum `Json<CreateTodo>` extractor decodes
the body before the handler runs; a body that fails to decode is rejected
with 422 Unprocessable Entity and the handler (hence the data-access layer)
is never invoked. -/
def create_endpoint (body : Json) (gen : Uuid)
    (insertRes : Except DbErr Todo) : HttpOutcome × List DbCall :=
  match decodeCreateTodo body with
  | none => (.response 422 .rejection, [])
  | some payload => create_todo payload gen insertRes

/-- The PUT /todos/{id} endpoint: the axum `Json<UpdateTodo>` extractor
decodes the body before the handler runs; a body that fails to decode is
rejected with 422 and the handler is never invoked. -/
def update_endpoint (i : Uuid) (body : Json)
    (readRes : Except DbErr (Option Todo))
    (writeRes : String → Bool → Except DbErr Todo) : HttpOutcome × List DbCall :=
  match decodeUpdateTodo body with
  | none => (.response 422 .rejection, [])
  | some payload => update_todo i payload readRes writeRes

/-! ### Store semantics of the SQL statements in handlers.rs -/

/-- The `todos` relation: a list of rows. -/
abbrev Store := List Todo

/-- Descending order on `created_at`, the sort order of the list query. -/
def createdDesc (a b : Todo) : Prop := b.created_at ≤ a.created_at

instance : DecidableRel createdDesc :=
  fun a b => inferInstanceAs (Decidable (b.created_at ≤ a.created_at))

instance : IsTotal Todo createdDesc :=
  ⟨fun a b => (Nat.le_total b.created_at a.created_at).imp id id⟩

instance : IsTrans Todo createdDesc :=
  ⟨fun _ _ _ h1 h2 => Nat.le_trans h2 h1⟩

/-- `SELECT * FROM todos ORDER BY created_at DESC`: every row, sorted by
`created_at` descending. -/
def sqlSelectAll (s : Store) : List Todo :=
  List.insertionSort createdDesc s

/-- `Insert into todos(id, title) values ($1, $2) returning *`.
The inserted columns are the bound `id` and `title`. Modelled from the spec:
the `todos` schema is an external collaborator not in this repository, and
per the spec it defaults `completed` to false and `created_at` to the
insertion time `now`. Returns the new store and the returned row. -/
def sqlInsert (s : Store) (i : Uuid) (title : String) (now : Nat) :
    Store × Todo :=
  let row : Todo := ⟨i, title, false, now⟩
  (s ++ [row], row)

/-- `SELECT * FROM todos WHERE id = $1` with `fetch_optional`: the first row
with the given id, if any. -/
def sqlSelectById (s : Store) (i : Uuid) : Option Todo :=
  s.find? (fun r => r.id == i)

/-- `DELETE FROM todos WHERE id = $1`: removes every row with the given
id. -/
def sqlDeleteById (s : Store) (i : Uuid) : Store :=
  s.filter (fun r => r.id != i)

/-- `UPDATE todos SET title = $1, completed = $2 WHERE id = $3`: rewrites
the `title` and `completed` columns of every row with the given id; all
other columns and rows are untouched. -/
def sqlUpdateRow (s : Store) (t : String) (c : Bool) (i : Uuid) : Store :=
  s.map (fun r => if r.id == i then { r with title := t, completed := c } else r)

/-- The `RETURNING *` row fetched by `fetch_one` after the update: the first
updated row with the given id, if any (`fetch_one` fails with a row-not-found
error when there is none). -/
def sqlUpdateReturning (s : Store) (t : String) (c : Bool) (i : Uuid) :
    Store × Option Todo :=
  let s2 := sqlUpdateRow s t c i
  (s2, s2.find? (fun r => r.id == i))

/-- Oracle of a healthy store for the read step of `update_todo` and for
`get_todo`: no connection failure, the optional row comes from the store. -/
def healthyRead (s : Store) (i : Uuid) : Except DbErr (Option Todo) :=
  .ok (sqlSelectById s i)

/-- Oracle of a healthy store for the write step of `update_todo`: the
update statement succeeds and `fetch_one` returns the updated row, or fails
with `rowNotFound` when no row matched. -/
def healthyWrite (s : Store) (i : Uuid) (t : String) (c : Bool) :
    Except DbErr Todo :=
  match (sqlUpdateReturning s t c i).snd with
  | some r => .ok r
  | none => .error .rowNotFound

/-- Oracle of a healthy store for `create_todo`: the insert succeeds and
returns the inserted row. -/
def healthyInsert (s : Store) (gen : Uuid) (now : Nat) (title : String) :
    Except DbErr Todo :=
  .ok (sqlInsert s gen title now).snd

/-! ### Helper lemmas -/

/-- Concrete identifier for witness instantiations. -/
def uuid0 : Uuid := ⟨0, by norm_num⟩

/-- Second concrete identifier. -/
def uuid1 : Uuid := ⟨1, by norm_num⟩

/-- Third concrete identifier. -/
def uuid2 : Uuid := ⟨2, by norm_num⟩

theorem find?_sqlUpdateRow (s : Store) (t : String) (c : Bool) (i : Uuid) :
    (sqlUpdateRow s t c i).find? (fun r => r.id == i)
      = (s.find? (fun r => r.id == i)).map
          (fun r => { r with title := t, completed := c }) := by
  induction s with
  | nil => rfl
  | cons a s ih =>
    by_cases ha : a.id = i
    · simp [sqlUpdateRow, List.find?_cons, ha]
    · simp [sqlUpdateRow, List.find?_cons, ha, ih, sqlUpdateRow] at ih ⊢
      exact ih

theorem healthyWrite_of_found (s : Store) (i : Uuid) (ex : Todo) (t : String)
    (c : Bool) (h : sqlSelectById s i = some ex) :
    healthyWrite s i t c = .ok { ex with title := t, completed := c } := by
  unfold sqlSelectById at h
  simp [healthyWrite, sqlUpdateReturning, find?_sqlUpdateRow, h]

theorem healthy_update_eq (s : Store) (i : Uuid) (p : UpdateTodo) (ex : Todo)
    (h : sqlSelectById s i = some ex) :
    update_todo i p (healthyRead s i) (healthyWrite s i)
      = (.response 200 (.jsonTodo { ex with title := p.title.getD ex.title,
                                            completed := p.completed.getD ex.completed }),
         [.selectById i,
          .updateRow (p.title.getD ex.title) (p.completed.getD ex.completed) i]) := by
  have hw := healthyWrite_of_found s i ex (p.title.getD ex.title)
    (p.completed.getD ex.completed) h
  simp [update_todo, healthyRead, h, hw]

theorem find?_append_fresh (s : Store) (row : Todo) (gen : Uuid)
    (hrow : row.id = gen) (hfresh : ∀ r ∈ s, r.id ≠ gen) :
    (s ++ [row]).find? (fun r => r.id == gen) = some row := by
  induction s with
  | nil => simp [List.find?_cons_of_pos, hrow]
  | cons a s ih =>
    rw [List.cons_append, List.find?_cons_of_neg _ (by simp [hfresh a (by simp)])]
    exact ih (fun r hr => hfresh r (List.mem_cons_of_mem a hr))

/-! ### Claims -/

/-- C1 counterexample: on a store/connectivity failure the list handler does
not produce a 500-class response (nor any response at all): it panics. -/
theorem list_store_failure_not_mapped :
    (list_todos (Except.error DbErr.connection)).fst = HttpOutcome.panicked ∧
    isServerErrorResponse (list_todos (Except.error DbErr.connection)).fst = false :=
  ⟨rfl, rfl⟩

/-- C1 (amended): for the list, create and get operations, a
store/connectivity failure from the data-access layer is not mapped by the
handler to any HTTP response: each handler calls `.unwrap()` on the failed
result and panics, so the failure escapes the handler un-mapped. -/
theorem store_failure_panics (e : DbErr) (p : CreateTodo) (g i : Uuid) :
    (list_todos (.error e)).fst = .panicked ∧
    (create_todo p g (.error e)).fst = .panicked ∧
    (get_todo i (.error e)).fst = .panicked :=
  ⟨rfl, rfl, rfl⟩

/-- C2 counterexample: a create body whose `title` is the empty string is
not rejected: the endpoint reaches the data-access layer (the insert call is
issued) and returns 200, not a 400-class response. -/
theorem empty_title_reaches_db :
    create_endpoint (Json.obj [("title", Json.str "")]) uuid0
        (Except.ok ⟨uuid0, "", false, 0⟩)
      = (HttpOutcome.response 200 (Body.jsonTodo ⟨uuid0, "", false, 0⟩),
         [DbCall.insertRow uuid0 ""]) := rfl

/-- C2 (amended): a create body whose `title` is missing or wrongly typed
fails to decode, and then the endpoint returns a 422 client-error rejection
and issues no data-access call; but the empty string is an accepted title:
a body with an empty `title` decodes successfully, so it is not rejected and
the insert is attempted. -/
theorem create_decode_failure_rejected (body : Json) (gen : Uuid)
    (ins : Except DbErr Todo) (h : decodeCreateTodo body = none) :
    create_endpoint body gen ins = (.response 422 .rejection, []) ∧
    decodeCreateTodo (Json.obj []) = none ∧
    decodeCreateTodo (Json.obj [("title", Json.num 3)]) = none ∧
    decodeCreateTodo (Json.obj [("title", Json.str "")]) = some ⟨""⟩ := by
  refine ⟨?_, rfl, rfl, rfl⟩
  simp [create_endpoint, h]

/-- Witness for C2 (amended) at the concrete body `{}` (missing title). -/
theorem create_decode_failure_rejected_witness :
    create_endpoint (Json.obj []) uuid0 (Except.ok ⟨uuid0, "", false, 0⟩)
        = (.response 422 .rejection, []) ∧
    decodeCreateTodo (Json.obj []) = none ∧
    decodeCreateTodo (Json.obj [("title", Json.num 3)]) = none ∧
    decodeCreateTodo (Json.obj [("title", Json.str "")]) = some ⟨""⟩ :=
  create_decode_failure_rejected (Json.obj []) uuid0
    (Except.ok ⟨uuid0, "", false, 0⟩) rfl

/-- C4: the update handler distinguishes its outcomes exactly: a failed
read gives 500 with message "database error"; an absent row gives 404; a
failed write gives 500 with message "Update failed"; a successful write
gives 200 with the updated row. -/
theorem update_outcome_mapping :
    (∀ (i : Uuid) (p : UpdateTodo) (w : String → Bool → Except DbErr Todo)
        (e : DbErr),
      update_todo i p (.error e) w
        = (.response 500 (.msg "database error"), [.selectById i])) ∧
    (∀ (i : Uuid) (p : UpdateTodo) (w : String → Bool → Except DbErr Todo),
      update_todo i p (.ok none) w
        = (.response 404 (.msg "Task not found"), [.selectById i])) ∧
    (∀ (i : Uuid) (p : UpdateTodo) (ex : Todo)
        (w : String → Bool → Except DbErr Todo) (e : DbErr),
      w (p.title.getD ex.title) (p.completed.getD ex.completed) = .error e →
      update_todo i p (.ok (some ex)) w
        = (.response 500 (.msg "Update failed"),
           [.selectById i,
            .updateRow (p.title.getD ex.title) (p.completed.getD ex.completed) i])) ∧
    (∀ (i : Uuid) (p : UpdateTodo) (ex : Todo)
        (w : String → Bool → Except DbErr Todo) (u : Todo),
      w (p.title.getD ex.title) (p.completed.getD ex.completed) = .ok u →
      update_todo i p (.ok (some ex)) w
        = (.response 200 (.jsonTodo u),
           [.selectById i,
            .updateRow (p.title.getD ex.title) (p.completed.getD ex.completed) i])) := by
  refine ⟨fun i p w e => rfl, fun i p w => rfl, fun i p ex w e hw => ?_,
    fun i p ex w u hw => ?_⟩ <;> simp [update_todo, hw]

/-- Witness for C4 at concrete inputs: a failing write maps to 500 "Update
failed" and a successful write maps to 200 with the updated row. -/
theorem update_outcome_mapping_witness :
    update_todo uuid0 ⟨some "y", none⟩ (.ok (some ⟨uuid0, "x", false, 0⟩))
        (fun _ _ => .error .connection)
      = (.response 500 (.msg "Update failed"),
         [.selectById uuid0, .updateRow "y" false uuid0]) ∧
    update_todo uuid0 ⟨some "y", none⟩ (.ok (some ⟨uuid0, "x", false, 0⟩))
        (fun t c => .ok ⟨uuid0, t, c, 0⟩)
      = (.response 200 (.jsonTodo ⟨uuid0, "y", false, 0⟩),
         [.selectById uuid0, .updateRow "y" false uuid0]) :=
  ⟨update_outcome_mapping.2.2.1 uuid0 ⟨some "y", none⟩ ⟨uuid0, "x", false, 0⟩
      (fun _ _ => .error .connection) .connection rfl,
   update_outcome_mapping.2.2.2 uuid0 ⟨some "y", none⟩ ⟨uuid0, "x", false, 0⟩
      (fun t c => .ok ⟨uuid0, t, c, 0⟩) ⟨uuid0, "y", false, 0⟩ rfl⟩

/-- C5: delete returns the 200 "Deleted" acknowledgement for every
identifier and every store outcome, the failed one included, so calling it
twice (or on a never-created id) succeeds both times; on the store, deleting
the same id twice equals deleting it once. -/
theorem delete_best_effort_idempotent :
    (∀ (i : Uuid) (r : Except DbErr Unit),
      delete_todo i r = (.response 200 (.text "Deleted"), [.deleteById i])) ∧
    (∀ (i : Uuid) (r1 r2 : Except DbErr Unit),
      (delete_todo i r1).fst = .response 200 (.text "Deleted") ∧
      (delete_todo i r2).fst = .response 200 (.text "Deleted")) ∧
    (∀ (s : Store) (i : Uuid),
      sqlDeleteById (sqlDeleteById s i) i = sqlDeleteById s i) := by
  refine ⟨fun i r => rfl, fun i r1 r2 => ⟨rfl, rfl⟩, fun s i => ?_⟩
  simp [sqlDeleteById, List.filter_filter]

/-- C3: for every existing record and every update payload, the merge
performed by the update handler on a healthy store is a field-by-field
override: the record written and returned takes the payload title when that
field is present and the just-read title otherwise, and the payload
completed when present and the just-read completed otherwise. -/
theorem update_merge_override (s : Store) (i : Uuid) (p : UpdateTodo)
    (ex : Todo) (h : sqlSelectById s i = some ex) :
    update_todo i p (healthyRead s i) (healthyWrite s i)
      = (.response 200 (.jsonTodo
          { ex with
            title := match p.title with | some t => t | none => ex.title,
            completed := match p.completed with | some c => c | none => ex.completed }),
         [.selectById i,
          .updateRow (p.title.getD ex.title) (p.completed.getD ex.completed) i]) := by
  have he := healthy_update_eq s i p ex h
  cases p with
  | mk pt pc => cases pt <;> cases pc <;> simpa using he

/-- Witness for C3: updating a record with only a completed value keeps the
stored title; the payload field present overrides, the absent one carries
over. -/
theorem update_merge_override_witness :
    update_todo uuid0 ⟨none, some true⟩
        (healthyRead [⟨uuid0, "x", false, 5⟩] uuid0)
        (healthyWrite [⟨uuid0, "x", false, 5⟩] uuid0)
      = (.response 200 (.jsonTodo ⟨uuid0, "x", true, 5⟩),
         [.selectById uuid0, .updateRow "x" true uuid0]) :=
  update_merge_override [⟨uuid0, "x", false, 5⟩] uuid0 ⟨none, some true⟩
    ⟨uuid0, "x", false, 5⟩ rfl

/-- C8: the update statement only writes title and completed: over the
whole store it preserves the id and created_at of every row, and on a
healthy store the row returned by a successful update keeps the id and
created_at of the just-read record. -/
theorem update_preserves_id_created_at :
    (∀ (s : Store) (t : String) (c : Bool) (i : Uuid),
      (sqlUpdateRow s t c i).map (fun r => (r.id, r.created_at))
        = s.map (fun r => (r.id, r.created_at))) ∧
    (∀ (s : Store) (i : Uuid) (p : UpdateTodo) (ex : Todo),
      sqlSelectById s i = some ex →
      (update_todo i p (healthyRead s i) (healthyWrite s i)).fst
        = .response 200 (.jsonTodo
            { id := ex.id, title := p.title.getD ex.title,
              completed := p.completed.getD ex.completed,
              created_at := ex.created_at })) := by
  refine ⟨fun s t c i => ?_, fun s i p ex h => congrArg Prod.fst (healthy_update_eq s i p ex h)⟩
  simp only [sqlUpdateRow, List.map_map]
  refine List.map_congr_left (fun r hr => ?_)
  by_cases hr2 : r.id = i <;> simp [hr2]

/-- Witness for C8: a successful update of a concrete record returns a row
with the original id and created_at. -/
theorem update_preserves_id_created_at_witness :
    (update_todo uuid0 ⟨some "y", some true⟩
        (healthyRead [⟨uuid0, "x", false, 5⟩] uuid0)
        (healthyWrite [⟨uuid0, "x", false, 5⟩] uuid0)).fst
      = .response 200 (.jsonTodo ⟨uuid0, "y", true, 5⟩) :=
  update_preserves_id_created_at.2 [⟨uuid0, "x", false, 5⟩] uuid0
    ⟨some "y", some true⟩ ⟨uuid0, "x", false, 5⟩ rfl

/-- C10: in the update body an explicit JSON null and an omitted field both
decode to the absent case, for both optional fields, so an update can never
clear title or completed to null; and for an existing record, a body that
omits (or nulls) both fields still performs the write and returns the
record with title and completed unchanged. -/
theorem null_field_equals_missing :
    decodeOptString none = some none ∧
    decodeOptString (some Json.null) = some none ∧
    decodeOptBool none = some none ∧
    decodeOptBool (some Json.null) = some none ∧
    decodeUpdateTodo (Json.obj [("title", Json.null), ("completed", Json.null)])
      = decodeUpdateTodo (Json.obj []) ∧
    decodeUpdateTodo (Json.obj []) = some ⟨none, none⟩ ∧
    (∀ (s : Store) (i : Uuid) (ex : Todo),
      sqlSelectById s i = some ex →
      update_endpoint i (Json.obj []) (healthyRead s i) (healthyWrite s i)
        = (.response 200 (.jsonTodo ex),
           [.selectById i, .updateRow ex.title ex.completed i])) := by
  refine ⟨rfl, rfl, rfl, rfl, rfl, rfl, fun s i ex h => ?_⟩
  have he := healthy_update_eq s i ⟨none, none⟩ ex h
  simpa [update_endpoint, decodeUpdateTodo] using he

/-- Witness for C10: an empty update body against a concrete record writes
back and returns the unchanged record. -/
theorem null_field_equals_missing_witness :
    update_endpoint uuid0 (Json.obj [])
        (healthyRead [⟨uuid0, "x", false, 5⟩] uuid0)
        (healthyWrite [⟨uuid0, "x", false, 5⟩] uuid0)
      = (.response 200 (.jsonTodo ⟨uuid0, "x", false, 5⟩),
         [.selectById uuid0, .updateRow "x" false uuid0]) :=
  null_field_equals_missing.2.2.2.2.2.2 [⟨uuid0, "x", false, 5⟩] uuid0
    ⟨uuid0, "x", false, 5⟩ rfl

/-- C6: on a healthy store the list operation returns 200 with every
persisted row, sorted by created_at descending (a permutation of the store,
sorted newest first); creating three records at strictly increasing times
and then listing yields them in reverse creation order. -/
theorem list_all_sorted_desc :
    (∀ s : Store,
      (list_todos (.ok (sqlSelectAll s))).fst
        = .response 200 (.jsonTodos (sqlSelectAll s)) ∧
      (sqlSelectAll s).Perm s ∧
      List.Sorted createdDesc (sqlSelectAll s)) ∧
    (∀ (i1 i2 i3 : Uuid) (t1 t2 t3 : String) (n1 n2 n3 : Nat),
      n1 < n2 → n2 < n3 →
      sqlSelectAll
          (sqlInsert (sqlInsert (sqlInsert [] i1 t1 n1).fst i2 t2 n2).fst i3 t3 n3).fst
        = [⟨i3, t3, false, n3⟩, ⟨i2, t2, false, n2⟩, ⟨i1, t1, false, n1⟩]) := by
  refine ⟨fun s => ⟨rfl, List.perm_insertionSort createdDesc s,
      List.sorted_insertionSort createdDesc s⟩,
    fun i1 i2 i3 t1 t2 t3 n1 n2 n3 h12 h23 => ?_⟩
  have e21 : ¬ (n2 ≤ n1) := by omega
  have e31 : ¬ (n3 ≤ n1) := by omega
  have e32 : ¬ (n3 ≤ n2) := by omega
  simp [sqlSelectAll, sqlInsert, createdDesc, e21, e31, e32]

/-- Witness for C6: three concrete creates at times 1, 2, 3 list back
newest first. -/
theorem list_all_sorted_desc_witness :
    sqlSelectAll
        (sqlInsert (sqlInsert (sqlInsert [] uuid0 "a" 1).fst uuid1 "b" 2).fst uuid2 "c" 3).fst
      = [⟨uuid2, "c", false, 3⟩, ⟨uuid1, "b", false, 2⟩, ⟨uuid0, "a", false, 1⟩] :=
  list_all_sorted_desc.2 uuid0 uuid1 uuid2 "a" "b" "c" 1 2 3
    (by decide) (by decide)

/-- C7: create persists and returns exactly the row with the generated
128 bit identifier, the given title, completed false and created_at the
insertion time; provided the generated id is fresh for the store, a
subsequent get on the new store returns that same row, whose created_at is
not earlier than the creation time. -/
theorem create_get_round_trip (s : Store) (t : String) (gen : Uuid) (now : Nat)
    (hfresh : ∀ r ∈ s, r.id ≠ gen) :
    (sqlInsert s gen t now).snd = ⟨gen, t, false, now⟩ ∧
    create_todo ⟨t⟩ gen (healthyInsert s gen now t)
      = (.response 200 (.jsonTodo ⟨gen, t, false, now⟩), [.insertRow gen t]) ∧
    get_todo gen (healthyRead (sqlInsert s gen t now).fst gen)
      = (.response 200 (.jsonTodo ⟨gen, t, false, now⟩), [.selectById gen]) ∧
    now ≤ (⟨gen, t, false, now⟩ : Todo).created_at := by
  have hf : sqlSelectById (sqlInsert s gen t now).fst gen
      = some ⟨gen, t, false, now⟩ := by
    unfold sqlSelectById sqlInsert
    exact find?_append_fresh s ⟨gen, t, false, now⟩ gen rfl hfresh
  refine ⟨rfl, rfl, ?_, Nat.le_refl now⟩
  simp [get_todo, healthyRead, hf]

/-- Witness for C7: creating into the empty store and reading back. -/
theorem create_get_round_trip_witness :
    (sqlInsert [] uuid0 "a" 7).snd = ⟨uuid0, "a", false, 7⟩ ∧
    create_todo ⟨"a"⟩ uuid0 (healthyInsert [] uuid0 7 "a")
      = (.response 200 (.jsonTodo ⟨uuid0, "a", false, 7⟩), [.insertRow uuid0 "a"]) ∧
    get_todo uuid0 (healthyRead (sqlInsert [] uuid0 "a" 7).fst uuid0)
      = (.response 200 (.jsonTodo ⟨uuid0, "a", false, 7⟩), [.selectById uuid0]) ∧
    7 ≤ (⟨uuid0, "a", false, 7⟩ : Todo).created_at :=
  create_get_round_trip [] "a" uuid0 7 (by simp)

/-- C9: the read-merge-write of update is two separate round trips, so two
updates of the same id can interleave with both reads before either write.
Starting from the record (x, completed false): the first update sets
completed to true and commits it; the second update, whose payload sets only
the title to y, merges against its stale read and its write returns the
record (y, completed false) — the change made by the first update to
completed, a field the second payload left unset, is silently discarded. In
the serial schedule the same second update returns (y, completed true). -/
theorem update_lost_update_race (i : Uuid) (x y : String) (n : Nat) :
    (update_todo i ⟨none, some true⟩
        (healthyRead [⟨i, x, false, n⟩] i)
        (healthyWrite [⟨i, x, false, n⟩] i)).fst
      = .response 200 (.jsonTodo ⟨i, x, true, n⟩) ∧
    (update_todo i ⟨some y, none⟩
        (healthyRead [⟨i, x, false, n⟩] i)
        (healthyWrite (sqlUpdateRow [⟨i, x, false, n⟩] x true i) i)).fst
      = .response 200 (.jsonTodo ⟨i, y, false, n⟩) ∧
    (⟨some y, none⟩ : UpdateTodo).completed = none ∧
    (update_todo i ⟨some y, none⟩
        (healthyRead (sqlUpdateRow [⟨i, x, false, n⟩] x true i) i)
        (healthyWrite (sqlUpdateRow [⟨i, x, false, n⟩] x true i) i)).fst
      = .response 200 (.jsonTodo ⟨i, y, true, n⟩) := by
  have hs0 : sqlSelectById [⟨i, x, false, n⟩] i = some ⟨i, x, false, n⟩ := by
    simp [sqlSelectById]
  have hrow1 : sqlUpdateRow [⟨i, x, false, n⟩] x true i = [⟨i, x, true, n⟩] := by
    simp [sqlUpdateRow]
  have hs1 : sqlSelectById (sqlUpdateRow [⟨i, x, false, n⟩] x true i) i
      = some ⟨i, x, true, n⟩ := by
    rw [hrow1]; simp [sqlSelectById]
  refine ⟨congrArg Prod.fst (healthy_update_eq _ i ⟨none, some true⟩ _ hs0), ?_, rfl,
    congrArg Prod.fst (healthy_update_eq _ i ⟨some y, none⟩ _ hs1)⟩
  have hw := healthyWrite_of_found (sqlUpdateRow [⟨i, x, false, n⟩] x true i) i
    ⟨i, x, true, n⟩ y false hs1
  simp [update_todo, healthyRead, hs0, hw]

end AxumApi
